import Mathlib

/-
Verification of the keyfile data model of the `kc` password store
(`src/utils/keyfiles.py`) against its natural-language specification.

The embedding is shallow: POSIX paths are modelled as an absolute flag
plus a list of components (following the parsing rules of python
pathlib, which collapses `.` and empty segments but keeps `..`);
the filesystem is an explicit state record (files, directories,
symbolic links); byte strings are modelled symbolically so that the
two cryptographic layers (sealed box, password-derived secret box)
can be expressed without bit-level detail.  Every operation of
`keyfiles.py` is translated into a pure Lean function over this state.
-/

namespace KC

/-- Decidable equality for `Except`, used to evaluate the model on
concrete inputs. -/
instance {ε α : Type} [DecidableEq ε] [DecidableEq α] : DecidableEq (Except ε α) :=
  fun x y =>
    match x, y with
    | .ok a, .ok b =>
        if h : a = b then .isTrue (by rw [h]) else .isFalse (by intro he; cases he; exact h rfl)
    | .error a, .error b =>
        if h : a = b then .isTrue (by rw [h]) else .isFalse (by intro he; cases he; exact h rfl)
    | .ok _, .error _ => .isFalse (by intro he; cases he)
    | .error _, .ok _ => .isFalse (by intro he; cases he)

/-! ## Path model (python pathlib, POSIX flavour) -/

/-- A pathlib PurePosixPath: an absolute flag plus the parsed components.
pathlib collapses `.` and empty segments during parsing but keeps `..`. -/
structure PyPath where
  isAbs : Bool
  parts : List String
deriving DecidableEq, Repr

/-- Split a character list on the path separator. -/
def splitSlash (cs : List Char) (cur : List Char) : List String :=
  match cs with
  | [] => [String.mk cur.reverse]
  | c :: rest =>
      if c == '/' then String.mk cur.reverse :: splitSlash rest []
      else splitSlash rest (c :: cur)

/-- Parse a path string the way pathlib does: split on the separator,
drop empty segments and single dots, keep everything else (including
parent-directory segments, which pathlib does not resolve). -/
def parsePath (s : String) : PyPath :=
  { isAbs := match s.toList with
      | c :: _ => c == '/'
      | [] => false
    parts := (splitSlash s.toList []).filter (fun c => !(c == "" || c == ".")) }

/-- Join of paths, python `p / q`: when the right side is absolute it
replaces the left side entirely, otherwise the components concatenate. -/
def PyPath.join (p q : PyPath) : PyPath :=
  if q.isAbs then q else { isAbs := p.isAbs, parts := p.parts ++ q.parts }

/-- The final component, python `Path.name` (empty for the root). -/
def PyPath.name (p : PyPath) : String :=
  (p.parts.getLast?).getD ""

/-- Python `Path.parent`: drop the final component; the root (and the
empty relative path) is its own parent. -/
def PyPath.parent (p : PyPath) : PyPath :=
  { p with parts := p.parts.dropLast }

/-- Index of the last dot of a list of characters, if any. -/
def lastDotIdx (cs : List Char) : Option Nat :=
  let rev := cs.reverse
  let i := rev.indexOf '.'
  if i < rev.length then some (cs.length - 1 - i) else none

/-- Python `Path.suffix`: the extension of the final component.  pathlib
returns the substring from the final dot when that dot is neither the
first nor the last character of the name, and the empty string otherwise. -/
def PyPath.suffix (p : PyPath) : String :=
  let cs := p.name.toList
  match lastDotIdx cs with
  | none => ""
  | some i => if 0 < i && i < cs.length - 1 then String.mk (cs.drop i) else ""

/-- Python `Path.absolute()`: prepend the current working directory when
the path is relative; `..` segments are NOT resolved.  `os.getcwd()`
always yields an absolute path, given here by its components. -/
def PyPath.absolutize (cwd : List String) (p : PyPath) : PyPath :=
  if p.isAbs then p else { isAbs := true, parts := cwd ++ p.parts }

/-- Resolution of parent-directory segments (what `Path.resolve` does to
`..` on a symlink-free tree): each `..` removes the preceding component. -/
def resolveParts (ps : List String) : List String :=
  ps.foldl (fun acc c => if c == ".." then acc.dropLast else acc ++ [c]) []

example : parsePath "/store/x.enc" = { isAbs := true, parts := ["store", "x.enc"] } := by
  decide

example : parsePath "a/../../x.enc" = { isAbs := false, parts := ["a", "..", "..", "x.enc"] } := by
  decide

example : (parsePath "/store/x.enc").suffix = ".enc" := by decide

example : (parsePath "/store/.enc").suffix = "" := by decide

example : (parsePath "/store/x.").suffix = "" := by decide

example : (parsePath "/store/x").suffix = "" := by decide

example : resolveParts ["store", "..", "x.enc"] = ["x.enc"] := by decide

/-! ## Errors

The error taxonomy: exceptions raised by `keyfiles.py` itself
(`InvalidFilenameErr`, `PasswdFileExistsErr`, `EmptyError`,
`FileNotFoundError`), exceptions of the python runtime and of PyNaCl
(`TypeError`, `ValueError`), the filesystem errors of `os` calls, and
the error kinds of the spec taxonomy (`KeyNotFound`,
`WrongPasswordOrCorruptData`, `MalformedContainer`). -/

inductive KCError where
  | invalidFilenameErr
  | passwdFileExistsErr
  | emptyError
  | fileNotFoundError
  | fileExistsError
  | isADirectoryError
  | keyNotFound
  | typeError
  | valueError
  | wrongPasswordOrCorruptData
  | malformedContainer
deriving DecidableEq, Repr

/-! ## Symbolic byte strings and keys

A NaCl keypair is modelled by a shared seed: the public key and the
private key of one pair carry the same seed, so a sealed box sealed to
public key `n` opens exactly under private key `n`.  Byte strings are
kept symbolic: raw bytes, encoded keys, a sealed-box ciphertext (with
the nonce of its fresh randomness), and the secret-box container of
the password-derived layer.  Recording the password inside the
container constructor is the symbolic counterpart of key derivation:
decryption succeeds exactly when the same password is supplied. -/

inductive Bytes where
  | raw (bs : List Nat)
  | utf8 (s : String)
  | pubKeyBytes (pk : Nat)
  | privKeyBytes (sk : Nat)
  | sealedBox (pk : Nat) (nonce : Nat) (payload : Bytes)
  | secretBoxContainer (salt : Nat) (nonce : Nat) (passwd : String) (payload : Bytes)
deriving DecidableEq, Repr

/-- PyNaCl `SealedBox(public_key).encrypt`: anonymous asymmetric
encryption of a payload to the holder of the matching private key;
`nonce` stands for the fresh internal randomness of the call. -/
def SealedBox.encrypt (pk : Nat) (nonce : Nat) (m : Bytes) : Bytes :=
  .sealedBox pk nonce m

/-- PyNaCl `SealedBox(private_key).decrypt`: succeeds exactly on a
sealed-box ciphertext produced for the matching public key. -/
def SealedBox.decrypt (sk : Nat) (c : Bytes) : Except KCError Bytes :=
  match c with
  | .sealedBox pk _ m => if pk == sk then .ok m else .error .wrongPasswordOrCorruptData
  | _ => .error .wrongPasswordOrCorruptData

/-- Python `bytes(passwd, "utf-8")`. -/
def utf8Encode (s : String) : Bytes := .utf8 s

/-- Python `bytes_value.decode("utf-8")`: fails on byte strings that are
not a UTF-8 encoding of a string. -/
def utf8Decode (b : Bytes) : Except KCError String :=
  match b with
  | .utf8 s => .ok s
  | _ => .error .valueError

/-- PyNaCl `PublicKey(bytes)`: decodes an encoded public key, rejecting
other byte strings (wrong length raises an exception). -/
def decodePublicKey (b : Bytes) : Except KCError Nat :=
  match b with
  | .pubKeyBytes pk => .ok pk
  | _ => .error .valueError

/-- PyNaCl `PrivateKey(bytes)`: decodes an encoded private key. -/
def decodePrivateKey (b : Bytes) : Except KCError Nat :=
  match b with
  | .privKeyBytes sk => .ok sk
  | _ => .error .valueError

/-! ## The password-derived secret box (`src/utils/crypto.py`)

The module `crypto.py` is imported by `keyfiles.py` but is not among
the available sources, so its two entry points are modelled from the
spec. -/

/-- Modelled from the spec: `PassEncryptedMessage` of the missing
`src/utils/crypto.py`, the self-describing container
`salt || nonce || ciphertext_with_tag` of section 4.2, kept abstract
as its serialized bytes; `from_bytes` / `to_bytes` round-trip. -/
structure PassEncryptedMessage where
  bytes : Bytes
deriving DecidableEq, Repr

/-- Modelled from the spec: `PassEncryptedMessage.from_bytes` parses the
on-disk byte string back into the container (round-trip serialization,
section 4.2). -/
def PassEncryptedMessage.from_bytes (b : Bytes) : PassEncryptedMessage :=
  ⟨b⟩

/-- Modelled from the spec: `bytes(container)`, the serialization
inverse of `from_bytes`. -/
def PassEncryptedMessage.to_bytes (c : PassEncryptedMessage) : Bytes :=
  c.bytes

/-- Modelled from the spec: `KeySecretBox(master_passwd).encrypt` of the
missing `src/utils/crypto.py` — derive a symmetric key from the
password and a fresh random salt, then authenticated symmetric
encryption under a fresh nonce (section 4.2). -/
def KeySecretBox.encrypt (masterPasswd : String) (salt nonce : Nat) (m : Bytes) :
    PassEncryptedMessage :=
  ⟨.secretBoxContainer salt nonce masterPasswd m⟩

/-- Modelled from the spec: `KeySecretBox.decrypt_message` — re-derive
the key from the embedded salt and the supplied password and attempt
authenticated decryption; wrong password and corrupted data collapse
to one error (section 4.2). -/
def KeySecretBox.decrypt_message (c : PassEncryptedMessage) (passwd : String) :
    Except KCError Bytes :=
  match c.bytes with
  | .secretBoxContainer _ _ p m =>
      if p == passwd then .ok m else .error .wrongPasswordOrCorruptData
  | _ => .error .wrongPasswordOrCorruptData

/-! ## Filesystem state -/

/-- Filesystem state: regular files with their contents, directories,
and symbolic links with their targets, each keyed by path.  The
association lists are read through first-match lookup. -/
structure FS where
  files : List (PyPath × Bytes)
  dirs : List PyPath
  symlinks : List (PyPath × PyPath)
deriving DecidableEq, Repr

/-- Contents of the regular file at a path, if one exists. -/
def FS.readFile (fs : FS) (p : PyPath) : Option Bytes :=
  fs.files.lookup p

/-- Whether a directory exists at the path; the root of an absolute
path always exists. -/
def FS.isDir (fs : FS) (p : PyPath) : Bool :=
  (p.isAbs && p.parts.isEmpty) || fs.dirs.contains p

/-- Python `Path.exists()`: a regular file, a directory or a symbolic
link lives at the path. -/
def FS.existsPath (fs : FS) (p : PyPath) : Bool :=
  (fs.readFile p).isSome || fs.isDir p || (fs.symlinks.lookup p).isSome

/-- Replace or create the regular file at a path. -/
def FS.setFile (fs : FS) (p : PyPath) (b : Bytes) : FS :=
  { fs with files := (p, b) :: fs.files.filter (fun e => !(e.1 == p)) }

/-- Python `open(p, "wb")` followed by a full write: requires the parent
directory to exist and the path itself not to be a directory; creates
or truncates the regular file. -/
def FS.writeFile (fs : FS) (p : PyPath) (b : Bytes) : Except KCError FS :=
  if fs.isDir p then .error .isADirectoryError
  else if fs.isDir p.parent then .ok (fs.setFile p b)
  else .error .fileNotFoundError

/-- Python `open(p, "rb")` followed by a full read. -/
def FS.openRead (fs : FS) (p : PyPath) : Except KCError Bytes :=
  if fs.isDir p then .error .isADirectoryError
  else match fs.readFile p with
    | some b => .ok b
    | none => .error .fileNotFoundError

/-- Python `Path.mkdir(exist_ok=True)` — WITHOUT `parents=True`: a
no-op when the directory already exists; otherwise creates the single
directory, failing with `FileNotFoundError` when its own parent is
missing (this is the semantics of `os.mkdir`). -/
def FS.mkdirNoParents (fs : FS) (p : PyPath) : Except KCError FS :=
  if fs.isDir p then .ok fs
  else if fs.existsPath p then .error .fileExistsError
  else if fs.isDir p.parent then .ok { fs with dirs := p :: fs.dirs }
  else .error .fileNotFoundError

/-- All the paths from the root down to `p` itself. -/
def PyPath.selfAndAncestors (p : PyPath) : List PyPath :=
  (List.range (p.parts.length + 1)).map (fun n => { isAbs := p.isAbs, parts := p.parts.take n })

/-- Python `Path.mkdir(parents=True, exist_ok=True)`: create the
directory and every missing ancestor. -/
def FS.mkdirWithParents (fs : FS) (p : PyPath) : FS :=
  { fs with dirs := p.selfAndAncestors ++ fs.dirs }

/-! ## Operation results

Each operation of `keyfiles.py` either returns a value, raises an
exception (`err`), or terminates the process through the
click-and-`exit(0)` shortcut (`exit`); the carried state is the state
at that point. -/

inductive OpRes (α : Type) (σ : Type) where
  | ok (a : α) (s : σ)
  | err (e : KCError) (s : σ)
  | exit (code : Nat) (s : σ)
deriving DecidableEq, Repr

/-! ## File construction (`File.__new__` plus the `__init__` checks)

`File.__new__` applies `Path.absolute()` to the parsed argument, so
every instance holds an absolute path; each subclass then validates
the extension of the final component and raises `InvalidFilenameErr`
on a mismatch. -/

/-- The `.pub` extension constant of `PublicKeyFile`. -/
def PUBKEY_FILE_EXT : String := ".pub"

/-- The `.enc` extension constant shared by `SecretKeyFile` and
`PasswdFile`. -/
def ENC_FILE_EXT : String := ".enc"

/-- Construction `PublicKeyFile(path)`: absolutize against the current
working directory (`File.__new__`), then require the `.pub` suffix
(`PublicKeyFile.__init__`). -/
def PublicKeyFile.new (cwd : List String) (p : PyPath) : Except KCError PyPath :=
  let abs := p.absolutize cwd
  if abs.suffix == PUBKEY_FILE_EXT then .ok abs else .error .invalidFilenameErr

/-- Construction `SecretKeyFile(path)`: absolutize, then require the
`.enc` suffix (`SecretKeyFile.__init__`). -/
def SecretKeyFile.new (cwd : List String) (p : PyPath) : Except KCError PyPath :=
  let abs := p.absolutize cwd
  if abs.suffix == ENC_FILE_EXT then .ok abs else .error .invalidFilenameErr

/-- Construction `PasswdFile(path)`: absolutize, then the two suffix
branches of `PasswdFile.__init__`.  pathlib `suffix` returns the empty
string (never `None`) for a name without an extension, so the
`is None` branch of the source is unreachable and both a missing and a
wrong extension raise `InvalidFilenameErr`. -/
def PasswdFile.new (cwd : List String) (p : PyPath) : Except KCError PyPath :=
  let abs := p.absolutize cwd
  if abs.suffix == ENC_FILE_EXT then .ok abs else .error .invalidFilenameErr

/-! ## PublicKeyFile operations -/

/-- The overwrite-confirmation prompt plus the write of
`PublicKeyFile.write`: when the target exists and confirmation is
requested, a declined prompt aborts the process with `exit(0)`;
otherwise the immediate parent is created with
`mkdir(exist_ok=True)` (no `parents=True`) and the encoded public key
bytes are written.  The `should_print_write_mesg` flag only controls a
terminal message and is omitted. -/
def PublicKeyFile.write (fs : FS) (p : PyPath) (pk : Nat)
    (shouldConfirmOverwrite confirmAnswer : Bool) : OpRes Unit FS :=
  if shouldConfirmOverwrite && fs.existsPath p && !confirmAnswer then
    .exit 0 fs
  else
    match fs.mkdirNoParents p.parent with
    | .error e => .err e fs
    | .ok fs1 =>
        match fs1.writeFile p (.pubKeyBytes pk) with
        | .error e => .err e fs1
        | .ok fs2 => .ok () fs2

/-- Operation `PublicKeyFile.retrieve`: when the path does not exist the
source prints an error message and terminates the process with
`exit(0)`; otherwise it reads the raw bytes and decodes them with
`PublicKey(...)`. -/
def PublicKeyFile.retrieve (fs : FS) (p : PyPath) : OpRes Nat Unit :=
  if !(fs.existsPath p) then .exit 0 ()
  else
    match fs.openRead p with
    | .error e => .err e ()
    | .ok b =>
        match decodePublicKey b with
        | .error e => .err e ()
        | .ok pk => .ok pk ()

/-! ## SecretKeyFile operations -/

/-- The per-instance memoization state of a `SecretKeyFile`: the
`cached_property` slot for `encrypted_file_bytes` in the instance
dictionary. -/
structure SKState where
  cache : Option PassEncryptedMessage
deriving DecidableEq, Repr

/-- Property `SecretKeyFile.encrypted_file_bytes` (a
`cached_property`): on a hit return the memoized container; on a miss,
terminate the process with `exit(0)` when the file does not exist,
otherwise parse the on-disk bytes with `PassEncryptedMessage.from_bytes`
and memoize the result. -/
def SecretKeyFile.encrypted_file_bytes (fs : FS) (st : SKState) (p : PyPath) :
    OpRes PassEncryptedMessage SKState :=
  match st.cache with
  | some c => .ok c st
  | none =>
      if !(fs.existsPath p) then .exit 0 st
      else
        match fs.openRead p with
        | .error e => .err e st
        | .ok b =>
            let c := PassEncryptedMessage.from_bytes b
            .ok c { cache := some c }

/-- Operation `SecretKeyFile.write_encrypted`: the same prompt contract
as `PublicKeyFile.write`; then encrypt the encoded private key with
the password-derived secret box, create the immediate parent with
`mkdir(exist_ok=True)`, write the container bytes, and finally run
`hasattr(self, "encrypted_file_bytes")` — which, on a cold cache,
computes and memoizes the property from the just-written file — and
`del self.encrypted_file_bytes`, which clears the slot again, leaving
the cache empty. -/
def SecretKeyFile.write_encrypted (fs : FS) (st : SKState) (p : PyPath)
    (sk : Nat) (masterPasswd : String) (salt nonce : Nat)
    (shouldConfirmOverwrite confirmAnswer : Bool) : OpRes Unit (FS × SKState) :=
  if shouldConfirmOverwrite && fs.existsPath p && !confirmAnswer then
    .exit 0 (fs, st)
  else
    let container := KeySecretBox.encrypt masterPasswd salt nonce (.privKeyBytes sk)
    match fs.mkdirNoParents p.parent with
    | .error e => .err e (fs, st)
    | .ok fs1 =>
        match fs1.writeFile p container.to_bytes with
        | .error e => .err e (fs1, st)
        | .ok fs2 =>
            match SecretKeyFile.encrypted_file_bytes fs2 st p with
            | .exit code st1 => .exit code (fs2, st1)
            | .err e st1 => .err e (fs2, st1)
            | .ok _ _ => .ok () (fs2, { cache := none })

/-- Operation `SecretKeyFile.retrieve`: read (or reuse the memoized)
container, decrypt it with the password-derived secret box, and decode
the plaintext with `PrivateKey(...)`. -/
def SecretKeyFile.retrieve (fs : FS) (st : SKState) (p : PyPath)
    (masterPasswd : String) : OpRes Nat SKState :=
  match SecretKeyFile.encrypted_file_bytes fs st p with
  | .exit code st1 => .exit code st1
  | .err e st1 => .err e st1
  | .ok c st1 =>
      match KeySecretBox.decrypt_message c masterPasswd with
      | .error e => .err e st1
      | .ok b =>
          match decodePrivateKey b with
          | .error e => .err e st1
          | .ok sk => .ok sk st1

/-! ## PasswdFile operations -/

/-- Classmethod `PasswdFile.from_service_name`: reject an empty service
name with `EmptyError`; otherwise build
`passwd_store_path / (service_name + ".enc")` with the pathlib join
and run it through the `PasswdFile` constructor.  The source applies
no sanitization to the service name. -/
def PasswdFile.from_service_name (cwd : List String) (service_name : String)
    (passwd_store_path : PyPath) : Except KCError PyPath :=
  if service_name.length = 0 then .error .emptyError
  else PasswdFile.new cwd (passwd_store_path.join (parsePath (service_name ++ ENC_FILE_EXT)))

/-- The argument of `PasswdFile.retrieve_passwd`.  The signature of the
source annotates it as a `PrivateKey`, while the tests of the
repository and the spec pass a zero-argument provider (a lambda
returning the key): both shapes are represented, a provider carrying
the key it would return when called. -/
inductive KeyArg where
  | key (sk : Nat)
  | provider (sk : Nat)
deriving DecidableEq, Repr

/-- PyNaCl `SealedBox(x)` applied to the argument: the constructor
type-checks its argument and raises `TypeError` when it is not a key
object — in particular when a zero-argument provider function is
passed.  The body of `retrieve_passwd` never calls the argument, so a
provider is never invoked; `providerInvoked` records whether a call
happened (always `false` in this code). -/
def sealedBoxOfArg (arg : KeyArg) : Except KCError Nat :=
  match arg with
  | .key sk => .ok sk
  | .provider _ => .error .typeError

/-- Operation `PasswdFile.retrieve_passwd`: raise `FileNotFoundError`
when the file does not exist; otherwise read the ciphertext, build
`SealedBox(secret_key)` from the argument as passed, decrypt, and
decode the plaintext as UTF-8.  The second component reports whether a
supplied provider was invoked: the source contains no call of its
argument, so it is `false` on every run. -/
def PasswdFile.retrieve_passwd (fs : FS) (p : PyPath) (arg : KeyArg) :
    (Except KCError String) × Bool :=
  if !(fs.existsPath p) then (.error .fileNotFoundError, false)
  else
    match fs.openRead p with
    | .error e => (.error e, false)
    | .ok c =>
        match sealedBoxOfArg arg with
        | .error e => (.error e, false)
        | .ok sk =>
            match SealedBox.decrypt sk c with
            | .error e => (.error e, false)
            | .ok b => (utf8Decode b, false)

/-- Operation `PasswdFile.write_passwd`: raise `PasswdFileExistsErr`
when the target already exists; otherwise seal the UTF-8 encoded
password to the public key and write the raw ciphertext (no parent
creation here; `nonce` stands for the fresh randomness of the sealed
box). -/
def PasswdFile.write_passwd (fs : FS) (p : PyPath) (passwd : String)
    (pk : Nat) (nonce : Nat) : OpRes Unit FS :=
  if fs.existsPath p then .err .passwdFileExistsErr fs
  else
    let c := SealedBox.encrypt pk nonce (utf8Encode passwd)
    match fs.writeFile p c with
    | .error e => .err e fs
    | .ok fs1 => .ok () fs1

/-- Modelled from the spec: `PasswdFile.alias` is absent from
`src/utils/keyfiles.py` (only the tests of the repository call it).
Section 4.5: fail with `FileNotFoundError` when the password file does
not yet exist, leaving the destination untouched; otherwise create the
missing parent directories of the destination and place a symbolic
link there pointing at the canonical path of this file. -/
def PasswdFile.alias (fs : FS) (p : PyPath) (dest : PyPath) : OpRes Unit FS :=
  if !(fs.existsPath p) then .err .fileNotFoundError fs
  else
    let canonical : PyPath := { isAbs := p.isAbs, parts := resolveParts p.parts }
    let fs1 := fs.mkdirWithParents dest.parent
    if fs1.existsPath dest then .err .fileExistsError fs1
    else .ok () { fs1 with symlinks := (dest, canonical) :: fs1.symlinks }

/-! ## Concrete fixtures for witnesses and counterexamples -/

/-- Empty filesystem (only the root directory). -/
def emptyFS : FS := { files := [], dirs := [], symlinks := [] }

/-- The password store directory `/store`. -/
def storeDir : PyPath := { isAbs := true, parts := ["store"] }

/-- Filesystem holding only the directory `/store`. -/
def storeFS : FS := { files := [], dirs := [storeDir], symlinks := [] }

/-- The password file path `/store/email.enc`. -/
def emailPath : PyPath := { isAbs := true, parts := ["store", "email.enc"] }

/-- Sealed-box ciphertext of the password `hunter2` for the keypair
with seed `7`. -/
def sealedHunter : Bytes := SealedBox.encrypt 7 0 (utf8Encode "hunter2")

/-- Filesystem after a successful `write_passwd` of `hunter2` into
`/store/email.enc`. -/
def fsWithPasswd : FS := storeFS.setFile emailPath sealedHunter

/-- The public key file path `/store/alice.pub`. -/
def alicePubPath : PyPath := { isAbs := true, parts := ["store", "alice.pub"] }

/-- The secret key file path `/store/alice.enc`. -/
def aliceSkPath : PyPath := { isAbs := true, parts := ["store", "alice.enc"] }

/-- An alias destination `/store/links/mail.lnk` with a not yet
existing parent directory. -/
def aliasDest : PyPath := { isAbs := true, parts := ["store", "links", "mail.lnk"] }

/-- A path two missing directories deep, `/a/b/k.pub`. -/
def deepPubPath : PyPath := { isAbs := true, parts := ["a", "b", "k.pub"] }

/-- A secret-key path two missing directories deep, `/a/b/k.enc`. -/
def deepSkPath : PyPath := { isAbs := true, parts := ["a", "b", "k.enc"] }

/-! ## Claim theorems -/

/-- C1: the claim states that `from_service_name` collapses
parent-directory segments of the service name so that only the final
path component survives and the result never lies outside the store
directory.  The source applies no sanitization: for the service name
`../x` (one of the malicious inputs of the repository test suite) the
constructed path is `/store/../x.enc`, which differs from the claimed
`/store/x.enc` and resolves to `/x.enc`, outside `/store`. -/
theorem C1_from_service_name_traversal_code_bug :
    PasswdFile.from_service_name ["home"] "../x" storeDir
      = .ok { isAbs := true, parts := ["store", "..", "x.enc"] }
    ∧ ({ isAbs := true, parts := ["store", "..", "x.enc"] } : PyPath)
        ≠ storeDir.join (parsePath "x.enc")
    ∧ resolveParts ["store", "..", "x.enc"] = ["x.enc"]
    ∧ resolveParts ["store", "..", "x.enc"] ≠ "store" :: resolveParts ["x.enc"] := by
  decide

/-- C4: writing a password file whose path already exists fails with
`PasswdFileExistsErr` and the returned state stores the same bytes at
the path as before the attempt. -/
theorem C4_write_passwd_exists (fs : FS) (p : PyPath) (passwd : String)
    (pk nonce : Nat) (h : fs.existsPath p = true) :
    ∃ fsA, PasswdFile.write_passwd fs p passwd pk nonce = .err .passwdFileExistsErr fsA
      ∧ fsA.readFile p = fs.readFile p := by
  refine ⟨fs, ?_, rfl⟩
  unfold PasswdFile.write_passwd
  simp [h]

/-- Witness for C4 at the concrete state holding `/store/email.enc`. -/
theorem C4_witness :
    ∃ fsA, PasswdFile.write_passwd fsWithPasswd emailPath "other" 9 1
        = .err .passwdFileExistsErr fsA
      ∧ fsA.readFile emailPath = fsWithPasswd.readFile emailPath :=
  C4_write_passwd_exists fsWithPasswd emailPath "other" 9 1 (by decide)

/-- C5: the claim states that after a successful `write_passwd`,
`retrieve_passwd` called with a zero-argument provider yielding the
matching private key returns the original password.  The source never
invokes the provider: it passes the argument itself to `SealedBox`,
whose constructor rejects a non-key object with `TypeError`, exactly
the call shape used by the repository test `test_password_read` and by
the end-to-end scenario of the spec.  Passing the bare key instead
round-trips, isolating the failure to the provider handling. -/
theorem C5_provider_type_error_code_bug :
    PasswdFile.from_service_name ["home"] "email" storeDir = .ok emailPath
    ∧ PasswdFile.write_passwd storeFS emailPath "hunter2" 7 0 = .ok () fsWithPasswd
    ∧ PasswdFile.retrieve_passwd fsWithPasswd emailPath (.provider 7)
        = (.error .typeError, false)
    ∧ (PasswdFile.retrieve_passwd fsWithPasswd emailPath (.provider 7)).1 ≠ .ok "hunter2"
    ∧ PasswdFile.retrieve_passwd fsWithPasswd emailPath (.key 7) = (.ok "hunter2", false) := by
  decide

/-- The body of `retrieve_passwd` contains no call of its argument, so
on every run the invocation flag is `false`. -/
theorem retrieve_passwd_never_invokes (fs : FS) (p : PyPath) (arg : KeyArg) :
    (PasswdFile.retrieve_passwd fs p arg).2 = false := by
  unfold PasswdFile.retrieve_passwd
  repeat' split
  all_goals rfl

/-- C2: on a password file whose path does not exist, `retrieve_passwd`
fails with `FileNotFoundError` without invoking the supplied provider;
and a run that invoked the provider can only have happened on an
existing file. -/
theorem C2_retrieve_passwd_missing_file (fs : FS) (p : PyPath) (arg : KeyArg)
    (h : fs.existsPath p = false) :
    PasswdFile.retrieve_passwd fs p arg = (.error .fileNotFoundError, false)
    ∧ ∀ (fs2 : FS) (arg2 : KeyArg),
        (PasswdFile.retrieve_passwd fs2 p arg2).2 = true → fs2.existsPath p = true := by
  constructor
  · unfold PasswdFile.retrieve_passwd
    simp [h]
  · intro fs2 arg2 hinv
    rw [retrieve_passwd_never_invokes] at hinv
    cases hinv

/-- Witness for C2: the store directory exists but `/store/email.enc`
does not; a provider is supplied. -/
theorem C2_witness :
    PasswdFile.retrieve_passwd storeFS emailPath (.provider 7)
      = (.error .fileNotFoundError, false)
    ∧ ∀ (fs2 : FS) (arg2 : KeyArg),
        (PasswdFile.retrieve_passwd fs2 emailPath arg2).2 = true →
          fs2.existsPath emailPath = true :=
  C2_retrieve_passwd_missing_file storeFS emailPath (.provider 7) (by decide)

/-- C8: construction of a `PublicKeyFile` fails with
`InvalidFilenameErr` exactly when the suffix of the (absolutized) path
differs from `.pub`, and succeeds on the correct extension; likewise a
`SecretKeyFile` and a `PasswdFile` require the suffix `.enc`. -/
theorem C8_extension_validation (cwd : List String) (p : PyPath) :
    ((p.absolutize cwd).suffix ≠ PUBKEY_FILE_EXT →
        PublicKeyFile.new cwd p = .error .invalidFilenameErr)
    ∧ ((p.absolutize cwd).suffix = PUBKEY_FILE_EXT →
        PublicKeyFile.new cwd p = .ok (p.absolutize cwd))
    ∧ ((p.absolutize cwd).suffix ≠ ENC_FILE_EXT →
        SecretKeyFile.new cwd p = .error .invalidFilenameErr)
    ∧ ((p.absolutize cwd).suffix = ENC_FILE_EXT →
        SecretKeyFile.new cwd p = .ok (p.absolutize cwd))
    ∧ ((p.absolutize cwd).suffix ≠ ENC_FILE_EXT →
        PasswdFile.new cwd p = .error .invalidFilenameErr)
    ∧ ((p.absolutize cwd).suffix = ENC_FILE_EXT →
        PasswdFile.new cwd p = .ok (p.absolutize cwd)) := by
  unfold PublicKeyFile.new SecretKeyFile.new PasswdFile.new
  refine ⟨fun h => ?_, fun h => ?_, fun h => ?_, fun h => ?_, fun h => ?_, fun h => ?_⟩
  all_goals simp [h]

/-- Witness for C8: `/k/alice.txt` is rejected by all three
constructors, `/k/alice.pub` is accepted as a public key file and
`/k/alice.enc` as a secret key file and as a password file. -/
theorem C8_witness :
    PublicKeyFile.new ["home"] (parsePath "/k/alice.txt") = .error .invalidFilenameErr
    ∧ PublicKeyFile.new ["home"] (parsePath "/k/alice.pub")
        = .ok ((parsePath "/k/alice.pub").absolutize ["home"])
    ∧ SecretKeyFile.new ["home"] (parsePath "/k/alice.txt") = .error .invalidFilenameErr
    ∧ SecretKeyFile.new ["home"] (parsePath "/k/alice.enc")
        = .ok ((parsePath "/k/alice.enc").absolutize ["home"])
    ∧ PasswdFile.new ["home"] (parsePath "/k/alice.txt") = .error .invalidFilenameErr
    ∧ PasswdFile.new ["home"] (parsePath "/k/alice.enc")
        = .ok ((parsePath "/k/alice.enc").absolutize ["home"]) :=
  ⟨(C8_extension_validation ["home"] (parsePath "/k/alice.txt")).1 (by decide),
   (C8_extension_validation ["home"] (parsePath "/k/alice.pub")).2.1 (by decide),
   (C8_extension_validation ["home"] (parsePath "/k/alice.txt")).2.2.1 (by decide),
   (C8_extension_validation ["home"] (parsePath "/k/alice.enc")).2.2.2.1 (by decide),
   (C8_extension_validation ["home"] (parsePath "/k/alice.txt")).2.2.2.2.1 (by decide),
   (C8_extension_validation ["home"] (parsePath "/k/alice.enc")).2.2.2.2.2 (by decide)⟩

/-- C10: every successfully constructed keyfile instance holds an
absolute path, namely the absolutization of the supplied path against
the current working directory; a relative input is anchored at the
working directory. -/
theorem absolutize_isAbs (cwd : List String) (p : PyPath) :
    (p.absolutize cwd).isAbs = true := by
  unfold PyPath.absolutize
  split <;> simp_all

theorem absolutize_parts_of_rel (cwd : List String) (p : PyPath)
    (h : p.isAbs = false) : (p.absolutize cwd).parts = cwd ++ p.parts := by
  unfold PyPath.absolutize
  simp [h]

theorem C10_absolutization (cwd : List String) (p q : PyPath) :
    (PublicKeyFile.new cwd p = .ok q →
        q = p.absolutize cwd ∧ q.isAbs = true
          ∧ (p.isAbs = false → q.parts = cwd ++ p.parts))
    ∧ (SecretKeyFile.new cwd p = .ok q →
        q = p.absolutize cwd ∧ q.isAbs = true
          ∧ (p.isAbs = false → q.parts = cwd ++ p.parts))
    ∧ (PasswdFile.new cwd p = .ok q →
        q = p.absolutize cwd ∧ q.isAbs = true
          ∧ (p.isAbs = false → q.parts = cwd ++ p.parts)) := by
  refine ⟨fun h => ?_, fun h => ?_, fun h => ?_⟩
  · simp only [PublicKeyFile.new] at h
    split at h
    · cases h
      exact ⟨rfl, absolutize_isAbs cwd p, fun hr => absolutize_parts_of_rel cwd p hr⟩
    · cases h
  · simp only [SecretKeyFile.new] at h
    split at h
    · cases h
      exact ⟨rfl, absolutize_isAbs cwd p, fun hr => absolutize_parts_of_rel cwd p hr⟩
    · cases h
  · simp only [PasswdFile.new] at h
    split at h
    · cases h
      exact ⟨rfl, absolutize_isAbs cwd p, fun hr => absolutize_parts_of_rel cwd p hr⟩
    · cases h

/-- C6, counterexample: the claim states that `retrieve` on a missing
public key file fails with `KeyNotFound`.  On the empty filesystem the
source instead prints a message and terminates the process with
`exit(0)`; no `KeyNotFound` condition is raised. -/
theorem C6_counterexample :
    PublicKeyFile.retrieve emptyFS alicePubPath = .exit 0 ()
    ∧ PublicKeyFile.retrieve emptyFS alicePubPath ≠ .err .keyNotFound () := by
  decide

/-- C6, amended: `retrieve` on a nonexistent path prints an error and
terminates the process with exit status 0 (instead of failing with a
catchable `KeyNotFound`); on an existing path it decodes the stored
bytes and returns the public key. -/
theorem C6_retrieve_exit_amended (fs : FS) (p : PyPath) (pk : Nat) :
    (fs.existsPath p = false → PublicKeyFile.retrieve fs p = .exit 0 ())
    ∧ (fs.readFile p = some (.pubKeyBytes pk) → fs.isDir p = false →
        PublicKeyFile.retrieve fs p = .ok pk ()) := by
  constructor
  · intro h
    unfold PublicKeyFile.retrieve
    simp [h]
  · intro hb hd
    unfold PublicKeyFile.retrieve FS.existsPath FS.openRead
    simp [hb, hd, decodePublicKey]

/-- Witness for C6: the missing-path branch on the empty filesystem and
the existing-path branch on a filesystem holding the encoded key 7 at
`/store/alice.pub`. -/
theorem C6_witness :
    PublicKeyFile.retrieve emptyFS alicePubPath = .exit 0 ()
    ∧ PublicKeyFile.retrieve (storeFS.setFile alicePubPath (.pubKeyBytes 7)) alicePubPath
        = .ok 7 () :=
  ⟨(C6_retrieve_exit_amended emptyFS alicePubPath 7).1 (by decide),
   (C6_retrieve_exit_amended (storeFS.setFile alicePubPath (.pubKeyBytes 7)) alicePubPath 7).2
     (by decide) (by decide)⟩

/-- C9, counterexample: the claim states that key file writes create all
missing ancestor directories, succeeding even when the ancestors of the
parent directory do not exist.  On the empty filesystem, writing
`/a/b/k.pub` (or the secret key container `/a/b/k.enc`) fails with
`FileNotFoundError` and writes nothing, because the source calls
`mkdir(exist_ok=True)` without `parents=True`. -/
theorem C9_counterexample :
    PublicKeyFile.write emptyFS deepPubPath 7 true true = .err .fileNotFoundError emptyFS
    ∧ SecretKeyFile.write_encrypted emptyFS ⟨none⟩ deepSkPath 7 "pw" 1 2 true true
        = .err .fileNotFoundError (emptyFS, ⟨none⟩) := by
  decide

/-- A path with a final component differs from its parent. -/
theorem ne_parent_of_parts_ne_nil (p : PyPath) (h : p.parts ≠ []) : p ≠ p.parent := by
  intro he
  have : p.parts = p.parts.dropLast := congrArg PyPath.parts he
  have hlen : p.parts.length = p.parts.length - 1 := by
    conv_lhs => rw [this]
    exact List.length_dropLast _
  have : 0 < p.parts.length := List.length_pos.mpr h
  omega

/-- Adding a directory other than `q` does not make `q` a directory. -/
theorem isDir_cons_ne (fs : FS) (d q : PyPath) (hne : q ≠ d)
    (h : fs.isDir q = false) :
    ({ fs with dirs := d :: fs.dirs } : FS).isDir q = false := by
  unfold FS.isDir at *
  simp only [List.contains_cons]
  simp only [Bool.or_eq_false_iff] at h ⊢
  refine ⟨h.1, ?_, h.2⟩
  simp [hne]

/-- The just-added directory is a directory. -/
theorem isDir_cons_self (fs : FS) (d : PyPath) :
    ({ fs with dirs := d :: fs.dirs } : FS).isDir d = true := by
  unfold FS.isDir
  simp [List.contains_cons]

/-- Reading back the just-written file. -/
theorem readFile_setFile (fs : FS) (p : PyPath) (b : Bytes) :
    (fs.setFile p b).readFile p = some b := by
  unfold FS.setFile FS.readFile
  simp [List.lookup]

/-- Writing a file changes no directory. -/
theorem isDir_setFile (fs : FS) (p q : PyPath) (b : Bytes) :
    (fs.setFile p b).isDir q = fs.isDir q := rfl

/-- C9, amended: when a key file write proceeds past the overwrite
prompt, only the immediate parent directory is created when missing:
the write succeeds when the parent of the parent exists, and fails
with `FileNotFoundError`, writing nothing, when the ancestors of the
parent are missing. -/
theorem C9_mkdir_amended (fs : FS) (p : PyPath) (pk sk salt nonce : Nat)
    (mp : String) (conf ans : Bool)
    (hgo : (conf && fs.existsPath p && !ans) = false)
    (hnil : p.parts ≠ [])
    (hpar : fs.isDir p.parent = false)
    (hent : fs.existsPath p.parent = false) :
    (fs.isDir p.parent.parent = true → fs.isDir p = false →
        PublicKeyFile.write fs p pk conf ans
          = .ok () (({ fs with dirs := p.parent :: fs.dirs }).setFile p (.pubKeyBytes pk)))
    ∧ (fs.isDir p.parent.parent = false →
        PublicKeyFile.write fs p pk conf ans = .err .fileNotFoundError fs)
    ∧ (fs.isDir p.parent.parent = true → fs.isDir p = false →
        SecretKeyFile.write_encrypted fs ⟨none⟩ p sk mp salt nonce conf ans
          = .ok () (({ fs with dirs := p.parent :: fs.dirs }).setFile p
                      (KeySecretBox.encrypt mp salt nonce (.privKeyBytes sk)).to_bytes,
                    ⟨none⟩))
    ∧ (fs.isDir p.parent.parent = false →
        SecretKeyFile.write_encrypted fs ⟨none⟩ p sk mp salt nonce conf ans
          = .err .fileNotFoundError (fs, ⟨none⟩)) := by
  have hne := ne_parent_of_parts_ne_nil p hnil
  have hmkfail : fs.isDir p.parent.parent = false →
      fs.mkdirNoParents p.parent = .error .fileNotFoundError := by
    intro hgg
    unfold FS.mkdirNoParents
    simp [hpar, hent, hgg]
  have hmkok : fs.mkdirNoParents p.parent = .ok { fs with dirs := p.parent :: fs.dirs }
      ∨ fs.mkdirNoParents p.parent = .error .fileNotFoundError := by
    unfold FS.mkdirNoParents
    by_cases hgg : fs.isDir p.parent.parent = true
    · left
      simp [hpar, hent, hgg]
    · right
      simp only [Bool.not_eq_true] at hgg
      simp [hpar, hent, hgg]
  refine ⟨fun hgg hpd => ?_, fun hgg => ?_, fun hgg hpd => ?_, fun hgg => ?_⟩
  · have hmk : fs.mkdirNoParents p.parent = .ok { fs with dirs := p.parent :: fs.dirs } := by
      unfold FS.mkdirNoParents
      simp [hpar, hent, hgg]
    have hwf : ({ fs with dirs := p.parent :: fs.dirs } : FS).writeFile p (.pubKeyBytes pk)
        = .ok (({ fs with dirs := p.parent :: fs.dirs }).setFile p (.pubKeyBytes pk)) := by
      unfold FS.writeFile
      simp [isDir_cons_ne fs p.parent p hne hpd, isDir_cons_self]
    unfold PublicKeyFile.write
    simp [hgo, hmk, hwf]
  · unfold PublicKeyFile.write
    simp [hgo, hmkfail hgg]
  · have hmk : fs.mkdirNoParents p.parent = .ok { fs with dirs := p.parent :: fs.dirs } := by
      unfold FS.mkdirNoParents
      simp [hpar, hent, hgg]
    have hwf : ({ fs with dirs := p.parent :: fs.dirs } : FS).writeFile p
        (KeySecretBox.encrypt mp salt nonce (.privKeyBytes sk)).to_bytes
        = .ok (({ fs with dirs := p.parent :: fs.dirs }).setFile p
                 (KeySecretBox.encrypt mp salt nonce (.privKeyBytes sk)).to_bytes) := by
      unfold FS.writeFile
      simp [isDir_cons_ne fs p.parent p hne hpd, isDir_cons_self]
    have hread : SecretKeyFile.encrypted_file_bytes
        (({ fs with dirs := p.parent :: fs.dirs }).setFile p
          (KeySecretBox.encrypt mp salt nonce (.privKeyBytes sk)).to_bytes)
        ⟨none⟩ p
        = .ok (PassEncryptedMessage.from_bytes
                 (KeySecretBox.encrypt mp salt nonce (.privKeyBytes sk)).to_bytes)
              ⟨some (PassEncryptedMessage.from_bytes
                 (KeySecretBox.encrypt mp salt nonce (.privKeyBytes sk)).to_bytes)⟩ := by
      unfold SecretKeyFile.encrypted_file_bytes FS.existsPath FS.openRead
      simp [readFile_setFile, isDir_setFile, isDir_cons_ne fs p.parent p hne hpd]
    unfold SecretKeyFile.write_encrypted
    simp [hgo, hmk, hwf, hread]
  · unfold SecretKeyFile.write_encrypted
    simp [hgo, hmkfail hgg]

/-- A public key path under a missing directory whose own parent
exists, `/store/links/k.pub`. -/
def linksPubPath : PyPath := { isAbs := true, parts := ["store", "links", "k.pub"] }

/-- Witness for C9: writing `/store/links/k.pub` creates the missing
directory `/store/links` (its parent `/store` exists) and succeeds,
while writing the container of `/a/b/k.enc` on the empty filesystem
fails with `FileNotFoundError` and changes nothing. -/
theorem C9_witness :
    PublicKeyFile.write storeFS linksPubPath 7 true true
      = .ok () (({ storeFS with
                   dirs := linksPubPath.parent :: storeFS.dirs }).setFile
                  linksPubPath (.pubKeyBytes 7))
    ∧ SecretKeyFile.write_encrypted emptyFS ⟨none⟩ deepSkPath 7 "pw" 1 2 true true
        = .err .fileNotFoundError (emptyFS, ⟨none⟩) :=
  ⟨(C9_mkdir_amended storeFS linksPubPath 7 7 1 2 "pw" true true (by decide)
      (by decide) (by decide) (by decide)).1 (by decide) (by decide),
   (C9_mkdir_amended emptyFS deepSkPath 7 7 1 2 "pw" true true (by decide)
      (by decide) (by decide) (by decide)).2.2.2 (by decide)⟩

/-- Every ancestor of `q` (including `q` itself) has at most as many
components as `q`. -/
theorem selfAndAncestors_length_le (q r : PyPath) (h : r ∈ q.selfAndAncestors) :
    r.parts.length ≤ q.parts.length := by
  unfold PyPath.selfAndAncestors at h
  obtain ⟨n, _, rfl⟩ := List.mem_map.mp h
  simp only [List.length_take]
  omega

/-- A path is one of its own ancestors. -/
theorem self_mem_selfAndAncestors (q : PyPath) : q ∈ q.selfAndAncestors := by
  unfold PyPath.selfAndAncestors
  refine List.mem_map.mpr ⟨q.parts.length, List.mem_range.mpr (Nat.lt_succ_self _), ?_⟩
  cases q with
  | mk a ps => simp

/-- Creating the ancestors of the parent of `dest` cannot bring `dest`
itself into existence. -/
theorem existsPath_mkdirWithParents_parent (fs : FS) (dest : PyPath)
    (hd : dest.parts ≠ []) :
    (fs.mkdirWithParents dest.parent).existsPath dest = fs.existsPath dest := by
  have hnm : dest ∉ dest.parent.selfAndAncestors := by
    intro hmem
    have hle := selfAndAncestors_length_le dest.parent dest hmem
    have hlt : dest.parent.parts.length < dest.parts.length := by
      unfold PyPath.parent
      have : 0 < dest.parts.length := List.length_pos.mpr hd
      simp only [List.length_dropLast]
      omega
    omega
  unfold FS.mkdirWithParents FS.existsPath FS.isDir FS.readFile
  simp only [List.contains, List.elem_eq_mem, List.mem_append, decide_eq_true_eq]
  congr 2
  simp [hnm]

/-- The target of `mkdirWithParents` is a directory afterwards. -/
theorem isDir_mkdirWithParents_self (fs : FS) (q : PyPath) :
    (fs.mkdirWithParents q).isDir q = true := by
  unfold FS.mkdirWithParents FS.isDir
  simp [List.contains, List.elem_eq_mem, self_mem_selfAndAncestors]

/-- C3: aliasing a password file that does not exist fails with
`FileNotFoundError` and leaves an absent destination absent; aliasing
an existing one creates the missing parent directories of the
destination and places a symbolic link there whose resolved target is
the canonical path of the password file. -/
theorem C3_alias_behavior (fs : FS) (p dest : PyPath) (hd : dest.parts ≠ []) :
    (fs.existsPath p = false →
        ∃ st, PasswdFile.alias fs p dest = .err .fileNotFoundError st
          ∧ (fs.existsPath dest = false → st.existsPath dest = false))
    ∧ (fs.existsPath p = true → fs.existsPath dest = false →
        ∃ fs2, PasswdFile.alias fs p dest = .ok () fs2
          ∧ fs2.symlinks.lookup dest
              = some { isAbs := p.isAbs, parts := resolveParts p.parts }
          ∧ fs2.isDir dest.parent = true) := by
  constructor
  · intro h
    refine ⟨fs, ?_, fun ha => ha⟩
    unfold PasswdFile.alias
    simp [h]
  · intro h hdest
    have habs : (fs.mkdirWithParents dest.parent).existsPath dest = false := by
      rw [existsPath_mkdirWithParents_parent fs dest hd]
      exact hdest
    refine ⟨{ fs.mkdirWithParents dest.parent with
              symlinks := (dest, { isAbs := p.isAbs, parts := resolveParts p.parts })
                          :: (fs.mkdirWithParents dest.parent).symlinks }, ?_, ?_, ?_⟩
    · unfold PasswdFile.alias
      simp [h, habs]
    · simp [List.lookup]
    · have := isDir_mkdirWithParents_self fs dest.parent
      unfold FS.isDir at *
      simpa using this

/-- Witness for C3: the missing-source branch (file and destination
both absent, destination stays absent) and the existing-source branch
(symbolic link created at `/store/links/mail.lnk`, resolving to
`/store/email.enc`, with the parent directory created). -/
theorem C3_witness :
    (∃ st, PasswdFile.alias storeFS emailPath aliasDest = .err .fileNotFoundError st
       ∧ st.existsPath aliasDest = false)
    ∧ (∃ fs2, PasswdFile.alias fsWithPasswd emailPath aliasDest = .ok () fs2
         ∧ fs2.symlinks.lookup aliasDest
             = some { isAbs := emailPath.isAbs, parts := resolveParts emailPath.parts }
         ∧ fs2.isDir aliasDest.parent = true) :=
  ⟨(fun ⟨st, he, ha⟩ => ⟨st, he, ha (by decide)⟩)
     (((C3_alias_behavior storeFS emailPath aliasDest (by decide)).1 (by decide))),
   (C3_alias_behavior fsWithPasswd emailPath aliasDest (by decide)).2
     (by decide) (by decide)⟩

/-- Consistency of the memoized container cache of a `SecretKeyFile`
with the disk: whenever the cache is populated it equals the parse of
the current on-disk bytes of the file. -/
def skCacheConsistent (fs : FS) (p : PyPath) (st : SKState) : Prop :=
  ∀ c, st.cache = some c →
    ∃ b, fs.readFile p = some b ∧ c = PassEncryptedMessage.from_bytes b

/-- A successful read through `encrypted_file_bytes` leaves the cache
equal to the parse of the current on-disk bytes. -/
theorem encrypted_file_bytes_keeps_consistency (fs : FS) (st st2 : SKState)
    (p : PyPath) (c : PassEncryptedMessage)
    (h : SecretKeyFile.encrypted_file_bytes fs st p = .ok c st2)
    (hc : skCacheConsistent fs p st) : skCacheConsistent fs p st2 := by
  unfold SecretKeyFile.encrypted_file_bytes at h
  split at h
  · cases h
    exact hc
  · split at h
    · cases h
    · split at h
      · cases h
      · rename_i b heq
        cases h
        intro cc hcc
        simp only [Option.some.injEq] at hcc
        refine ⟨b, ?_, hcc.symm⟩
        unfold FS.openRead at heq
        split at heq
        · cases heq
        · split at heq
          · rename_i b0 hrd
            cases heq
            exact hrd
          · cases heq

/-- C7: after a successful `write_encrypted` the memoized container
cache is empty (so no pre-write container survives), the file stores
the fresh container bytes, a subsequent `retrieve` decrypts exactly
the newly written on-disk bytes, and the cache-disk consistency
invariant holds — as it does after every successful read through
`encrypted_file_bytes`. -/
theorem C7_cache_invalidation (fs : FS) (st : SKState) (p : PyPath)
    (sk : Nat) (mp : String) (salt nonce : Nat) (conf ans : Bool)
    (fs2 : FS) (st2 : SKState)
    (h : SecretKeyFile.write_encrypted fs st p sk mp salt nonce conf ans
           = .ok () (fs2, st2)) :
    st2.cache = none
    ∧ fs2.readFile p
        = some (KeySecretBox.encrypt mp salt nonce (.privKeyBytes sk)).to_bytes
    ∧ skCacheConsistent fs2 p st2
    ∧ SecretKeyFile.retrieve fs2 st2 p mp
        = .ok sk ⟨some (KeySecretBox.encrypt mp salt nonce (.privKeyBytes sk))⟩
    ∧ ∀ (fsr : FS) (str str2 : SKState) (c : PassEncryptedMessage),
        SecretKeyFile.encrypted_file_bytes fsr str p = .ok c str2 →
        skCacheConsistent fsr p str → skCacheConsistent fsr p str2 := by
  unfold SecretKeyFile.write_encrypted at h
  split at h
  · cases h
  · split at h
    · cases h
    · rename_i fs1 hmk
      simp only [] at h
      split at h
      · cases h
      · rename_i fsw hwf
        split at h
        · cases h
        · cases h
        · rename_i c st1 heb
          cases h
          unfold FS.writeFile at hwf
          split at hwf
          · cases hwf
          · rename_i hdirp
            split at hwf
            · cases hwf
              simp only [Bool.not_eq_true] at hdirp
              refine ⟨rfl, readFile_setFile fs1 p _, ?_, ?_, ?_⟩
              · intro cc hcc
                cases hcc
              · unfold SecretKeyFile.retrieve SecretKeyFile.encrypted_file_bytes
                simp [FS.existsPath, FS.openRead, readFile_setFile, isDir_setFile,
                      hdirp, KeySecretBox.decrypt_message, PassEncryptedMessage.from_bytes,
                      PassEncryptedMessage.to_bytes, KeySecretBox.encrypt,
                      decodePrivateKey]
              · exact fun fsr str str2 c2 hr hcons =>
                  encrypted_file_bytes_keeps_consistency fsr str str2 p c2 hr hcons
            · cases hwf

/-- Initial state of the secret key container at `/store/alice.enc`
after a first `write_encrypted` on the store filesystem. -/
def skWrittenFS : FS :=
  storeFS.setFile aliceSkPath
    (KeySecretBox.encrypt "M0Ms_-Sp46h377i" 1 2 (.privKeyBytes 7)).to_bytes

/-- Witness for C7: a concrete first write of the encrypted private key
7 under the master password of the spec scenario, performed on the
store filesystem with a cold cache. -/
theorem C7_witness :
    (⟨none⟩ : SKState).cache = none
    ∧ skWrittenFS.readFile aliceSkPath
        = some (KeySecretBox.encrypt "M0Ms_-Sp46h377i" 1 2 (.privKeyBytes 7)).to_bytes
    ∧ skCacheConsistent skWrittenFS aliceSkPath ⟨none⟩
    ∧ SecretKeyFile.retrieve skWrittenFS ⟨none⟩ aliceSkPath "M0Ms_-Sp46h377i"
        = .ok 7 ⟨some (KeySecretBox.encrypt "M0Ms_-Sp46h377i" 1 2 (.privKeyBytes 7))⟩
    ∧ ∀ (fsr : FS) (str str2 : SKState) (c : PassEncryptedMessage),
        SecretKeyFile.encrypted_file_bytes fsr str aliceSkPath = .ok c str2 →
        skCacheConsistent fsr aliceSkPath str → skCacheConsistent fsr aliceSkPath str2 :=
  C7_cache_invalidation storeFS ⟨none⟩ aliceSkPath 7 "M0Ms_-Sp46h377i" 1 2 true true
    skWrittenFS ⟨none⟩ (by decide)

/-- Witness for C10: the relative path `k/alice.pub` constructed under
the working directory `/home` yields `/home/k/alice.pub`. -/
theorem C10_witness :
    ((parsePath "k/alice.pub").absolutize ["home"]).isAbs = true
    ∧ ((parsePath "k/alice.pub").absolutize ["home"]).parts
        = ["home"] ++ (parsePath "k/alice.pub").parts :=
  have h :=
    (C10_absolutization ["home"] (parsePath "k/alice.pub")
      ((parsePath "k/alice.pub").absolutize ["home"])).1 (by decide)
  ⟨h.2.1, h.2.2 (by decide)⟩

end KC
